import Mathlib

/-!
Verification of the training-coordination layer of marian-dev
(`src/training/graph_group.cpp` and `src/common/file_stream.cpp`).

The embedding models machine floats as rationals (`ℚ`), machine integers
(`size_t`) as naturals with explicit `% 2^64` where wrap-around matters,
and side effects (model loads, saves, swaps, warnings, fatal aborts) as
explicit event traces.
-/

set_option maxRecDepth 4000

namespace Marian

/-- Cost-scaling state held by `GraphGroup` (graph_group.cpp): the
multiplicative loss-scale factor `costScaleFactor_`, its configuration
fields, and the two NaN counters `nanSeen_` / `noNanSeen_`. -/
structure CostScaleState where
  costScale : Bool
  costScaleFactor : ℚ
  costScaleFreq : ℕ
  costScaleMultiplier : ℚ
  costScaleNanTolerance : ℚ
  costScaleNanRange : ℕ
  costScaleFactorMinimum : ℚ
  nanSeen : ℕ
  noNanSeen : ℕ
deriving Repr, DecidableEq

/-- Threshold condition of `GraphGroup::decreaseCostScaleFactor`
(graph_group.cpp line 114), with `nanSeen_` already incremented:
`total >= costScaleNanRange_ && nanPercent > costScaleNanTolerance_`
where `total = nanSeen_ + noNanSeen_` and `nanPercent = nanSeen_ / total`. -/
def decreaseCond (s : CostScaleState) : Prop :=
  s.nanSeen + 1 + s.noNanSeen ≥ s.costScaleNanRange ∧
    ((s.nanSeen + 1 : ℕ) : ℚ) / ((s.nanSeen + 1 + s.noNanSeen : ℕ) : ℚ)
      > s.costScaleNanTolerance

instance (s : CostScaleState) : Decidable (decreaseCond s) := by
  unfold decreaseCond; infer_instance

/-- Embedding of `GraphGroup::increaseCostScaleFactor`
(graph_group.cpp lines 82-103): on a step with no NaN/Inf, increment
`noNanSeen_`; when it reaches a multiple of `costScaleFreq_`, multiply the
factor by `costScaleMultiplier_` and reset both counters. -/
def increaseCostScaleFactor (s : CostScaleState) : CostScaleState :=
  if !s.costScale then s
  else if (s.noNanSeen + 1) % s.costScaleFreq = 0 then
    { s with costScaleFactor := s.costScaleFactor * s.costScaleMultiplier,
             noNanSeen := 0, nanSeen := 0 }
  else
    { s with noNanSeen := s.noNanSeen + 1 }

/-- Embedding of `GraphGroup::decreaseCostScaleFactor`
(graph_group.cpp lines 106-135): on a NaN/Inf step, increment `nanSeen_`;
when the threshold condition fires, divide the factor by the multiplier if
it is still above `costScaleFactorMinimum_` (otherwise only warn), and
reset both counters; otherwise keep accumulating. -/
def decreaseCostScaleFactor (s : CostScaleState) : CostScaleState :=
  if !s.costScale then s
  else if decreaseCond s then
    if s.costScaleFactor > s.costScaleFactorMinimum then
      { s with costScaleFactor := s.costScaleFactor / s.costScaleMultiplier,
               noNanSeen := 0, nanSeen := 0 }
    else
      { s with noNanSeen := 0, nanSeen := 0 }
  else
    { s with nanSeen := s.nanSeen + 1 }

/-- Outcome of one training step, as reported to the cost-scale controller:
either no NaN/Inf was seen in the gradient, or one was. -/
inductive StepOutcome where
  | noNan : StepOutcome
  | nanOrInf : StepOutcome
deriving Repr, DecidableEq

/-- Dispatch of one step outcome to the matching `GraphGroup` call. -/
def applyStep (s : CostScaleState) : StepOutcome → CostScaleState
  | StepOutcome.noNan => increaseCostScaleFactor s
  | StepOutcome.nanOrInf => decreaseCostScaleFactor s

/-- Run a whole sequence of step outcomes through the controller. -/
def runSteps (s : CostScaleState) : List StepOutcome → CostScaleState
  | [] => s
  | o :: os => runSteps (applyStep s o) os

/-- Concrete starting state showing that the decrease branch can push the
factor below the configured minimum: factor 2, minimum 3/2, multiplier 2,
range 1, tolerance 0. -/
def c1Start : CostScaleState :=
  { costScale := true, costScaleFactor := 2, costScaleFreq := 2000,
    costScaleMultiplier := 2, costScaleNanTolerance := 0,
    costScaleNanRange := 1, costScaleFactorMinimum := 3/2,
    nanSeen := 0, noNanSeen := 0 }

/-- Invariant maintained by both cost-scale calls: the configuration fields
stay fixed, the factor stays positive, and the factor stays at or above
`minimum / multiplier` (it can fall below `minimum` itself, since the
decrease branch divides whenever the factor is strictly above the minimum). -/
def csInvariant (minimum multiplier : ℚ) (s : CostScaleState) : Prop :=
  s.costScaleFactorMinimum = minimum ∧ s.costScaleMultiplier = multiplier ∧
    0 < s.costScaleFactor ∧ minimum / multiplier ≤ s.costScaleFactor

theorem csInvariant_applyStep {minimum multiplier : ℚ}
    (hmul : 1 ≤ multiplier) {s : CostScaleState} (o : StepOutcome)
    (h : csInvariant minimum multiplier s) :
    csInvariant minimum multiplier (applyStep s o) := by
  have hmul0 : (0 : ℚ) < multiplier := lt_of_lt_of_le one_pos hmul
  obtain ⟨h1, h2, h3, h4⟩ := h
  cases o with
  | noNan =>
    simp only [applyStep, increaseCostScaleFactor]
    split
    · exact ⟨h1, h2, h3, h4⟩
    split
    · refine ⟨h1, h2, mul_pos h3 (h2 ▸ hmul0), ?_⟩
      calc minimum / multiplier ≤ s.costScaleFactor := h4
        _ = s.costScaleFactor * 1 := (mul_one _).symm
        _ ≤ s.costScaleFactor * s.costScaleMultiplier :=
            mul_le_mul_of_nonneg_left (h2 ▸ hmul) (le_of_lt h3)
    · exact ⟨h1, h2, h3, h4⟩
  | nanOrInf =>
    simp only [applyStep, decreaseCostScaleFactor]
    split
    · exact ⟨h1, h2, h3, h4⟩
    split
    · split
      · rename_i hgt
        refine ⟨h1, h2, div_pos h3 (h2 ▸ hmul0), ?_⟩
        rw [h2]
        exact (div_le_div_iff_of_pos_right hmul0).mpr (le_of_lt (h1 ▸ hgt))
      · exact ⟨h1, h2, h3, h4⟩
    · exact ⟨h1, h2, h3, h4⟩

theorem csInvariant_runSteps {minimum multiplier : ℚ}
    (hmul : 1 ≤ multiplier) (os : List StepOutcome) {s : CostScaleState}
    (h : csInvariant minimum multiplier s) :
    csInvariant minimum multiplier (runSteps s os) := by
  induction os generalizing s with
  | nil => exact h
  | cons o os ih => exact ih (csInvariant_applyStep hmul o h)

/-- C1 counterexample: with cost scaling enabled, factor 2, minimum 3/2,
multiplier 2, nanRange 1 and nanTolerance 0, a single NaN step takes the
decrease branch (the guard only checks `factor > minimum` before dividing)
and the factor drops to 1, strictly below the minimum 3/2 — refuting the
claimed invariant `costScaleFactor >= costScaleFactorMinimum` after every
call. -/
theorem c1_counterexample :
    c1Start.costScaleFactorMinimum ≤ c1Start.costScaleFactor ∧
    ¬ c1Start.costScaleFactorMinimum ≤
        (runSteps c1Start [StepOutcome.nanOrInf]).costScaleFactor := by
  constructor
  · norm_num [c1Start]
  · norm_num [runSteps, applyStep, decreaseCostScaleFactor, decreaseCond,
      c1Start]

/-- C1 (amended): the factor can drop below `costScaleFactorMinimum` (the
decrease branch divides whenever the factor is strictly above the minimum),
but for every sequence of step outcomes it never drops below
`costScaleFactorMinimum / costScaleMultiplier`, provided the minimum is
positive, the multiplier is at least 1 and the initial factor is at or
above the minimum. -/
theorem c1_factor_lower_bound (s : CostScaleState) (os : List StepOutcome)
    (hmin : 0 < s.costScaleFactorMinimum)
    (hmul : 1 ≤ s.costScaleMultiplier)
    (hf : s.costScaleFactorMinimum ≤ s.costScaleFactor) :
    s.costScaleFactorMinimum / s.costScaleMultiplier ≤
      (runSteps s os).costScaleFactor := by
  have hpos : 0 < s.costScaleFactor := lt_of_lt_of_le hmin hf
  have hinit : csInvariant s.costScaleFactorMinimum s.costScaleMultiplier s :=
    ⟨rfl, rfl, hpos, le_trans (div_le_self (le_of_lt hmin) hmul) hf⟩
  exact (csInvariant_runSteps hmul os hinit).2.2.2

/-- Witness for the C1 theorem at the concrete state `c1Start` and a
two-step outcome sequence. -/
theorem c1_factor_lower_bound_witness :
    c1Start.costScaleFactorMinimum / c1Start.costScaleMultiplier ≤
      (runSteps c1Start
        [StepOutcome.nanOrInf, StepOutcome.noNan]).costScaleFactor :=
  c1_factor_lower_bound c1Start _ (by norm_num [c1Start])
    (by norm_num [c1Start]) (by norm_num [c1Start])

/-- C2: after any multiplier application — the increase branch when the
incremented `noNanSeen` count is a multiple of the frequency, or the
decrease branch when the threshold condition holds — both counters are
zero; and when the decrease threshold condition is false, neither counter
is reset: `nanSeen` keeps accumulating and `noNanSeen` is untouched. -/
theorem c2_counter_reset (s : CostScaleState) (hcs : s.costScale = true) :
    ((s.noNanSeen + 1) % s.costScaleFreq = 0 →
      (increaseCostScaleFactor s).nanSeen = 0 ∧
      (increaseCostScaleFactor s).noNanSeen = 0) ∧
    (decreaseCond s →
      (decreaseCostScaleFactor s).nanSeen = 0 ∧
      (decreaseCostScaleFactor s).noNanSeen = 0) ∧
    (¬ decreaseCond s →
      (decreaseCostScaleFactor s).nanSeen = s.nanSeen + 1 ∧
      (decreaseCostScaleFactor s).noNanSeen = s.noNanSeen) := by
  refine ⟨?_, ?_, ?_⟩
  · intro h
    simp [increaseCostScaleFactor, hcs, h]
  · intro h
    simp only [decreaseCostScaleFactor, hcs, Bool.not_true, Bool.false_eq_true,
      if_false, if_pos h]
    split <;> exact ⟨rfl, rfl⟩
  · intro h
    simp [decreaseCostScaleFactor, hcs, h]

/-- Witness for the C2 theorem at the concrete state `c1Start`, whose
decrease threshold condition holds after one NaN. -/
theorem c2_counter_reset_witness :
    (decreaseCostScaleFactor c1Start).nanSeen = 0 ∧
    (decreaseCostScaleFactor c1Start).noNanSeen = 0 :=
  (c2_counter_reset c1Start rfl).2.1 (by norm_num [decreaseCond, c1Start])

/-- Configuration read by `GraphGroup::computeNormalizationFactor`
(graph_group.cpp lines 167-215): the cost-scaling flag and factor, the
`normalize-gradient` option, and the dynamic gradient-scaling settings. -/
structure NormConfig where
  costScale : Bool
  costScaleFactor : ℚ
  normalizeGradient : Bool
  dynamicGradientScaling : Bool
  dynamicGradientScalingFactor : ℚ
  dynamicGradientScalingUseLogs : Bool
deriving Repr, DecidableEq

/-- Readings obtained from the external scheduler service inside
`computeNormalizationFactor`: the `(window, average, variance)` triples
returned by `getLogGradientNormStats` / `getGradientNormStats`, and
`numberOfBatches()`. -/
structure SchedulerStats where
  logStats : ℕ × ℚ × ℚ
  linStats : ℕ × ℚ × ℚ
  numberOfBatches : ℕ
deriving Repr, DecidableEq

/-- Embedding of `GraphGroup::computeNormalizationFactor`
(graph_group.cpp lines 167-215). The transcendental functions `std::log`,
`std::exp` and `std::sqrt` used only in the dynamic-scaling branch are
passed in abstractly as `logF`, `expF` and `sqrtF`; finiteness of the
incoming gradient norm is the explicit flag `gNormFinite` (mirroring
`isFinite(gNorm)`). -/
def computeNormalizationFactor (cfg : NormConfig) (sched : SchedulerStats)
    (logF expF sqrtF : ℚ → ℚ) (gNormFinite : Bool) (gNorm : ℚ)
    (updateTrgWords : ℕ) : ℚ :=
  let normalizationFactor : ℚ := 1
  let normalizationFactor :=
    if cfg.costScale then normalizationFactor * cfg.costScaleFactor
    else normalizationFactor
  let normalizationFactor :=
    if cfg.normalizeGradient then normalizationFactor * (updateTrgWords : ℚ)
    else normalizationFactor
  if !gNormFinite then normalizationFactor
  else if cfg.dynamicGradientScaling then
    let gNorm := if cfg.costScale then gNorm / cfg.costScaleFactor else gNorm
    let gNorm := gNorm / (updateTrgWords : ℚ)
    let stats :=
      if cfg.dynamicGradientScalingUseLogs then sched.logStats
      else sched.linStats
    let window := stats.1
    let gNormAvgTransform := stats.2.1
    let gNormVarTransform := stats.2.2
    let gNormTransform :=
      if cfg.dynamicGradientScalingUseLogs then logF gNorm else gNorm
    let gNormAvg :=
      if cfg.dynamicGradientScalingUseLogs then expF gNormAvgTransform
      else gNormAvgTransform
    let deltaTransform := gNormTransform - gNormAvgTransform
    let gNormStdTransform := sqrtF gNormVarTransform
    if sched.numberOfBatches ≥ window ∧
        deltaTransform > cfg.dynamicGradientScalingFactor * gNormStdTransform
    then normalizationFactor * (gNorm / gNormAvg)
    else normalizationFactor
  else normalizationFactor

/-- C3: with dynamic gradient scaling disabled, `computeNormalizationFactor`
returns exactly the product of the cost-scale factor (when cost scaling is
enabled, else 1) and the token count (when `normalize-gradient` is enabled,
else 1) — for every gradient norm, finite or not, every token count, every
scheduler reading and every interpretation of log/exp/sqrt. -/
theorem c3_normalization_factor (cfg : NormConfig) (sched : SchedulerStats)
    (logF expF sqrtF : ℚ → ℚ) (gNormFinite : Bool) (gNorm : ℚ)
    (updateTrgWords : ℕ) (h : cfg.dynamicGradientScaling = false) :
    computeNormalizationFactor cfg sched logF expF sqrtF gNormFinite gNorm
        updateTrgWords =
      (if cfg.costScale then cfg.costScaleFactor else 1) *
        (if cfg.normalizeGradient then (updateTrgWords : ℚ) else 1) := by
  simp only [computeNormalizationFactor, h]
  cases gNormFinite <;> cases hc : cfg.costScale <;>
    cases hn : cfg.normalizeGradient <;> simp

/-- Witness for the C3 theorem at a concrete configuration and inputs. -/
theorem c3_normalization_factor_witness :
    computeNormalizationFactor
        { costScale := true, costScaleFactor := 8, normalizeGradient := true,
          dynamicGradientScaling := false, dynamicGradientScalingFactor := 2,
          dynamicGradientScalingUseLogs := false }
        { logStats := (10, 0, 1), linStats := (10, 1, 1),
          numberOfBatches := 100 }
        id id id true (5/2) 320 =
      (if true then (8 : ℚ) else 1) * (if true then ((320 : ℕ) : ℚ) else 1) :=
  c3_normalization_factor _ _ id id id true (5/2) 320 rfl

/-- One item of a checkpoint file (`io::Item`): a name, a tensor shape and
an element type. Raw data is not modelled; only the metadata the control
logic branches on. -/
structure CkptItem where
  name : String
  shape : List ℕ
  itemType : String
deriving Repr, DecidableEq

/-- Per-replica graph state visible to `GraphGroup::load` and
`GraphGroup::restoreFromCheckpoint`: the shape and element type of the
replica's live parameter tensor. -/
structure GraphState where
  paramShape : List ℕ
  paramType : String
deriving Repr, DecidableEq

/-- Observable actions of `GraphGroup::load` and
`GraphGroup::restoreFromCheckpoint`, in program order: scheduler restore,
per-replica model-weight loads (with the `markedReloaded` argument of
`models_[i]->load`), the collective optimizer-shard load, the two warnings,
per-replica forward/convert/set/clear during master-parameter restore, and
the fatal shape-mismatch abort. -/
inductive TrainEvent where
  | schedulerLoad (path : String)
  | modelLoad (replica : ℕ) (path : String) (markedReloaded : Bool)
  | optimizerShardsLoad
  | warnNoCheckpoint
  | warnNoMasterParams
  | graphForward (replica : ℕ)
  | itemConvert (replica : ℕ) (toType : String)
  | paramsSet (replica : ℕ)
  | graphClear (replica : ℕ)
  | abortShapeMismatch (replica : ℕ)
deriving Repr, DecidableEq

/-- Options and filesystem state consumed by `GraphGroup::load` and
`GraphGroup::restoreFromCheckpoint`. -/
structure LoadConfig where
  noReload : Bool
  modelPath : String
  modelExists : Bool
  pretrainedModel : Option String
  hasScheduler : Bool
  graphs : List GraphState
  checkpointExists : Bool
  checkpointItems : List CkptItem
deriving Repr, DecidableEq

/-- Lookup of the reserved `"master_parameters"` item, embedding the
`std::find_if` call in `GraphGroup::restoreFromCheckpoint`
(graph_group.cpp lines 282-283). -/
def findMaster (items : List CkptItem) : Option CkptItem :=
  items.find? (fun item => item.name == "master_parameters")

/-- Per-replica restore loop of `GraphGroup::restoreFromCheckpoint`
(graph_group.cpp lines 291-304): forward pass, fatal shape check,
item-type conversion when needed (the conversion mutates the shared item,
so the current item type threads through), value copy, graph clear. The
fatal abort truncates the trace. -/
def restoreLoop (masterShape : List ℕ) :
    ℕ → String → List GraphState → List TrainEvent
  | _, _, [] => []
  | i, itemType, g :: gs =>
    TrainEvent.graphForward i ::
      (if g.paramShape ≠ masterShape then [TrainEvent.abortShapeMismatch i]
       else if itemType ≠ g.paramType then
         TrainEvent.itemConvert i g.paramType :: TrainEvent.paramsSet i ::
           TrainEvent.graphClear i ::
             restoreLoop masterShape (i + 1) g.paramType gs
       else
         TrainEvent.paramsSet i :: TrainEvent.graphClear i ::
           restoreLoop masterShape (i + 1) itemType gs)

/-- Embedding of `GraphGroup::restoreFromCheckpoint`
(graph_group.cpp lines 258-307): warn and return when the optimizer
checkpoint file is missing; otherwise load it, dispatch the optimizer-shard
load, warn and return when no `"master_parameters"` item exists, and
otherwise run the per-replica restore loop. -/
def restoreFromCheckpoint (cfg : LoadConfig) : List TrainEvent :=
  if !cfg.checkpointExists then [TrainEvent.warnNoCheckpoint]
  else
    TrainEvent.optimizerShardsLoad ::
      (match findMaster cfg.checkpointItems with
       | none => [TrainEvent.warnNoMasterParams]
       | some master => restoreLoop master.shape 0 master.itemType cfg.graphs)

/-- Embedding of `GraphGroup::load` (graph_group.cpp lines 217-256): when
reload is enabled and the model file exists, restore the scheduler, load
the model into every replica and restore the checkpoint; when reload is
enabled and the model file is missing but a pretrained model is given,
load only its weights into every replica; when `no-reload` is set, do
nothing at all (the whole body sits under `if(!no-reload)`). -/
def loadModel (cfg : LoadConfig) : List TrainEvent :=
  if !cfg.noReload then
    if cfg.modelExists then
      (if cfg.hasScheduler then [TrainEvent.schedulerLoad cfg.modelPath]
       else []) ++
        (List.range cfg.graphs.length).map
          (fun i => TrainEvent.modelLoad i cfg.modelPath true) ++
        restoreFromCheckpoint cfg
    else
      match cfg.pretrainedModel with
      | some nameInit =>
        (List.range cfg.graphs.length).map
          (fun i => TrainEvent.modelLoad i nameInit false)
      | none => []
  else []

/-- Concrete configuration with `no-reload` set and a pretrained model
path supplied. -/
def c4Cfg : LoadConfig :=
  { noReload := true, modelPath := "model.npz", modelExists := false,
    pretrainedModel := some "pretrained.npz", hasScheduler := true,
    graphs := [{ paramShape := [256, 512], paramType := "float32" }],
    checkpointExists := false, checkpointItems := [] }

/-- C4 (evaluation at the failing input): with `no-reload` set and a
pretrained-model path supplied, `GraphGroup::load` performs no action at
all — in particular it does not load the pretrained weights into any
replica, because the pretrained-model branch is nested inside
`if(!no-reload)`, contradicting the function's own leading comment
(`else if pretrained-model path given: initialize matching weights from
pretrained model`). -/
theorem c4_no_reload_ignores_pretrained :
    c4Cfg.noReload = true ∧ c4Cfg.pretrainedModel = some "pretrained.npz" ∧
    c4Cfg.graphs ≠ [] ∧ loadModel c4Cfg = [] := by
  refine ⟨rfl, rfl, by simp [c4Cfg], rfl⟩

/-- C6: restoring a checkpoint whose `"master_parameters"` shape differs
from the (shared, replicated) live parameter shape aborts fatally at the
first replica, before any `paramsSet` copy of checkpoint values into any
replica's live parameters. -/
theorem c6_shape_mismatch_aborts (cfg : LoadConfig) (master : CkptItem)
    (sharedShape : List ℕ)
    (hck : cfg.checkpointExists = true)
    (hfind : findMaster cfg.checkpointItems = some master)
    (hrep : ∀ g ∈ cfg.graphs, g.paramShape = sharedShape)
    (hne : sharedShape ≠ master.shape)
    (hnonempty : cfg.graphs ≠ []) :
    TrainEvent.abortShapeMismatch 0 ∈ restoreFromCheckpoint cfg ∧
    ∀ i, TrainEvent.paramsSet i ∉ restoreFromCheckpoint cfg := by
  obtain ⟨g, gs, hgs⟩ : ∃ g gs, cfg.graphs = g :: gs := by
    cases hg : cfg.graphs with
    | nil => exact absurd hg hnonempty
    | cons g gs => exact ⟨g, gs, rfl⟩
  have hgshape : g.paramShape = sharedShape := by
    refine hrep g ?_
    rw [hgs]
    exact List.mem_cons_self g gs
  have htrace : restoreFromCheckpoint cfg =
      [TrainEvent.optimizerShardsLoad, TrainEvent.graphForward 0,
       TrainEvent.abortShapeMismatch 0] := by
    simp only [restoreFromCheckpoint, hck, hfind, hgs, restoreLoop,
      Bool.not_true, Bool.false_eq_true, if_false]
    rw [if_pos (by rw [hgshape]; exact hne)]
  rw [htrace]
  exact ⟨by simp, by intro i; simp⟩

/-- Concrete configuration whose checkpoint master shape disagrees with
the replicas' live parameter shape. -/
def c6Cfg : LoadConfig :=
  { noReload := false, modelPath := "model.npz", modelExists := true,
    pretrainedModel := none, hasScheduler := true,
    graphs := [{ paramShape := [10], paramType := "float32" }],
    checkpointExists := true,
    checkpointItems :=
      [{ name := "master_parameters", shape := [20],
         itemType := "float32" }] }

/-- Witness for the C6 theorem at the concrete configuration `c6Cfg`. -/
theorem c6_shape_mismatch_aborts_witness :
    TrainEvent.abortShapeMismatch 0 ∈ restoreFromCheckpoint c6Cfg ∧
    TrainEvent.paramsSet 0 ∉ restoreFromCheckpoint c6Cfg :=
  ⟨(c6_shape_mismatch_aborts c6Cfg
      { name := "master_parameters", shape := [20], itemType := "float32" }
      [10] rfl rfl (by intro g hg; simp [c6Cfg] at hg; rw [hg])
      (by simp) (by simp [c6Cfg])).1,
   (c6_shape_mismatch_aborts c6Cfg
      { name := "master_parameters", shape := [20], itemType := "float32" }
      [10] rfl rfl (by intro g hg; simp [c6Cfg] at hg; rw [hg])
      (by simp) (by simp [c6Cfg])).2 0⟩

/-- C7: a missing optimizer-checkpoint file yields only the fallback
warning; a present checkpoint without a `"master_parameters"` item yields
the shard load followed by the other fallback warning; in both cases no
fatal abort occurs and no checkpoint values are copied into replica
parameters, so replica weights stay as loaded from the inference model. -/
theorem c7_missing_checkpoint_recoverable (cfg : LoadConfig) :
    (cfg.checkpointExists = false →
      restoreFromCheckpoint cfg = [TrainEvent.warnNoCheckpoint]) ∧
    (cfg.checkpointExists = true → findMaster cfg.checkpointItems = none →
      restoreFromCheckpoint cfg =
        [TrainEvent.optimizerShardsLoad, TrainEvent.warnNoMasterParams]) ∧
    ((cfg.checkpointExists = false ∨ findMaster cfg.checkpointItems = none) →
      (∀ i, TrainEvent.abortShapeMismatch i ∉ restoreFromCheckpoint cfg) ∧
      ∀ i, TrainEvent.paramsSet i ∉ restoreFromCheckpoint cfg) := by
  refine ⟨?_, ?_, ?_⟩
  · intro h
    simp [restoreFromCheckpoint, h]
  · intro h hm
    simp [restoreFromCheckpoint, h, hm]
  · intro h
    cases hck : cfg.checkpointExists with
    | false =>
      rw [show restoreFromCheckpoint cfg = [TrainEvent.warnNoCheckpoint] by
        simp [restoreFromCheckpoint, hck]]
      exact ⟨by intro i; simp, by intro i; simp⟩
    | true =>
      have hm : findMaster cfg.checkpointItems = none := by
        cases h with
        | inl h0 => rw [hck] at h0; cases h0
        | inr h0 => exact h0
      rw [show restoreFromCheckpoint cfg =
          [TrainEvent.optimizerShardsLoad, TrainEvent.warnNoMasterParams] by
        simp [restoreFromCheckpoint, hck, hm]]
      exact ⟨by intro i; simp, by intro i; simp⟩

/-- Witness for the C7 theorem at a concrete configuration with no
checkpoint file on disk. -/
theorem c7_missing_checkpoint_recoverable_witness :
    restoreFromCheckpoint c4Cfg = [TrainEvent.warnNoCheckpoint] ∧
    TrainEvent.abortShapeMismatch 0 ∉ restoreFromCheckpoint c4Cfg ∧
    TrainEvent.paramsSet 0 ∉ restoreFromCheckpoint c4Cfg :=
  ⟨(c7_missing_checkpoint_recoverable c4Cfg).1 rfl,
   ((c7_missing_checkpoint_recoverable c4Cfg).2.2 (Or.inl rfl)).1 0,
   ((c7_missing_checkpoint_recoverable c4Cfg).2.2 (Or.inl rfl)).2 0⟩

/-- Options and scheduler state consumed by `GraphGroup::saveModel`
(graph_group.cpp lines 336-360). -/
structure SaveConfig where
  modelPath : String
  overwrite : Bool
  hasScheduler : Bool
  numberOfBatches : ℕ
deriving Repr, DecidableEq

/-- Observable actions of `GraphGroup::saveModel`: a model-file write (with
its `saveTranslatorConfig` argument) and a scheduler-state save. -/
inductive SaveEvent where
  | modelSave (path : String) (saveTranslatorConfig : Bool)
  | schedulerSave (path : String)
deriving Repr, DecidableEq

/-- Iteration-count string used in the snapshot filename
(graph_group.cpp lines 346-348): the scheduler's batch count, or
`"unknown"` without a scheduler. -/
def numberOfBatchesStr (cfg : SaveConfig) : String :=
  if cfg.hasScheduler then toString cfg.numberOfBatches else "unknown"

/-- Snapshot filename built by
`nameOverwrite.replace(name.size() - 4, 4, ".iter" + numberOfBatches + ".npz")`
(graph_group.cpp line 350): the last four characters of the model path
(its `.npz` extension) are replaced by `.iter<N>.npz`. -/
def iterationName (name : String) (numberOfBatches : String) : String :=
  (name.take (name.length - 4)) ++ ".iter" ++ numberOfBatches ++ ".npz"

/-- Embedding of `GraphGroup::saveModel` (graph_group.cpp lines 336-360):
in overwrite mode, write the canonical model file and save scheduler
state; otherwise write an iteration-numbered snapshot first — but only on
non-final saves — then the canonical model file and the scheduler state. -/
def saveModel (cfg : SaveConfig) (isFinal : Bool) : List SaveEvent :=
  if cfg.overwrite then
    SaveEvent.modelSave cfg.modelPath true ::
      (if cfg.hasScheduler then [SaveEvent.schedulerSave cfg.modelPath]
       else [])
  else
    (if !isFinal then
      [SaveEvent.modelSave (iterationName cfg.modelPath (numberOfBatchesStr cfg))
        false]
     else []) ++
      SaveEvent.modelSave cfg.modelPath true ::
        (if cfg.hasScheduler then [SaveEvent.schedulerSave cfg.modelPath]
         else [])

/-- Concrete save configuration in non-overwrite mode. -/
def c5Cfg : SaveConfig :=
  { modelPath := "model.npz", overwrite := false, hasScheduler := true,
    numberOfBatches := 10 }

/-- C5 counterexample: on a final save in non-overwrite mode, `saveModel`
writes no iteration-numbered snapshot at all — the trace is exactly the
canonical model write followed by the scheduler save — refuting the claim
that the snapshot is written on every save in non-overwrite mode. -/
theorem c5_counterexample :
    c5Cfg.overwrite = false ∧
    saveModel c5Cfg true =
      [SaveEvent.modelSave "model.npz" true,
       SaveEvent.schedulerSave "model.npz"] := by
  exact ⟨rfl, rfl⟩

/-- C5 (amended): on every non-final save in non-overwrite mode,
`saveModel` first writes the iteration-numbered snapshot (the model
filename with its trailing `.npz` extension replaced by `.iter<N>.npz`),
then the canonical model file, then the scheduler state; and in every
mode, on every save, the canonical model file is written and, when a
scheduler exists, its state is persisted alongside. On final non-overwrite
saves the snapshot is skipped. -/
theorem c5_save_model (cfg : SaveConfig) (isFinal : Bool) :
    (cfg.overwrite = false → isFinal = false →
      saveModel cfg isFinal =
        SaveEvent.modelSave (iterationName cfg.modelPath (numberOfBatchesStr cfg))
            false ::
          SaveEvent.modelSave cfg.modelPath true ::
            (if cfg.hasScheduler then [SaveEvent.schedulerSave cfg.modelPath]
             else [])) ∧
    SaveEvent.modelSave cfg.modelPath true ∈ saveModel cfg isFinal ∧
    (cfg.hasScheduler = true →
      SaveEvent.schedulerSave cfg.modelPath ∈ saveModel cfg isFinal) := by
  refine ⟨?_, ?_, ?_⟩
  · intro ho hf
    simp [saveModel, ho, hf]
  · simp only [saveModel]
    split
    · exact List.mem_cons_self ..
    · apply List.mem_append_right
      exact List.mem_cons_self ..
  · intro hs
    simp only [saveModel, hs]
    split
    · exact List.mem_cons_of_mem _ (by simp)
    · apply List.mem_append_right
      exact List.mem_cons_of_mem _ (by simp)

/-- Witness for the C5 theorem at the concrete configuration `c5Cfg` on a
non-final save. -/
theorem c5_save_model_witness :
    saveModel c5Cfg false =
      SaveEvent.modelSave (iterationName c5Cfg.modelPath (numberOfBatchesStr c5Cfg))
          false ::
        SaveEvent.modelSave c5Cfg.modelPath true ::
          (if c5Cfg.hasScheduler then [SaveEvent.schedulerSave c5Cfg.modelPath]
           else []) ∧
    SaveEvent.modelSave c5Cfg.modelPath true ∈ saveModel c5Cfg false ∧
    SaveEvent.schedulerSave c5Cfg.modelPath ∈ saveModel c5Cfg false :=
  ⟨(c5_save_model c5Cfg false).1 rfl rfl, (c5_save_model c5Cfg false).2.1,
   (c5_save_model c5Cfg false).2.2 rfl⟩

/-- Observable actions of `GraphGroup::swapWithSmoothed` and
`GraphGroup::swapWithOriginal` (graph_group.cpp lines 388-404): one
per-shard swap call `opts[i]->swapWithSmoothed(graphs[i], i, graphs.size(),
swapAvg)`, the final distribution callback, and the fatal count-mismatch
abort. -/
inductive SwapEvent where
  | swapShard (index : ℕ) (total : ℕ) (swapAvg : Bool)
  | distribute
  | abortCountMismatch (graphCount : ℕ) (optCount : ℕ)
deriving Repr, DecidableEq

/-- Embedding of `GraphGroup::swapWithSmoothed` (graph_group.cpp lines
388-395): abort fatally when the replica and optimizer-shard counts
differ, otherwise swap every shard with its smoothed copy and distribute. -/
def swapWithSmoothed {γ ω : Type} (graphs : List γ) (opts : List ω) :
    List SwapEvent :=
  if graphs.length ≠ opts.length then
    [SwapEvent.abortCountMismatch graphs.length opts.length]
  else
    ((List.range graphs.length).map
      (fun i => SwapEvent.swapShard i graphs.length true)) ++
      [SwapEvent.distribute]

/-- Embedding of `GraphGroup::swapWithOriginal` (graph_group.cpp lines
397-404): the same guard and loop with `swapAvg = false`. -/
def swapWithOriginal {γ ω : Type} (graphs : List γ) (opts : List ω) :
    List SwapEvent :=
  if graphs.length ≠ opts.length then
    [SwapEvent.abortCountMismatch graphs.length opts.length]
  else
    ((List.range graphs.length).map
      (fun i => SwapEvent.swapShard i graphs.length false)) ++
      [SwapEvent.distribute]

/-- C8: both collective swap operations check the replica/shard count
invariant first; on mismatch the trace is exactly the fatal abort — no
per-replica swap and no distribution is performed. -/
theorem c8_swap_count_guard {γ ω : Type} (graphs : List γ) (opts : List ω)
    (h : graphs.length ≠ opts.length) :
    swapWithSmoothed graphs opts =
      [SwapEvent.abortCountMismatch graphs.length opts.length] ∧
    swapWithOriginal graphs opts =
      [SwapEvent.abortCountMismatch graphs.length opts.length] := by
  constructor <;> simp [swapWithSmoothed, swapWithOriginal, h]

/-- Witness for the C8 theorem with one replica and zero shards. -/
theorem c8_swap_count_guard_witness :
    swapWithSmoothed [()] ([] : List Unit) =
      [SwapEvent.abortCountMismatch 1 0] ∧
    swapWithOriginal [()] ([] : List Unit) =
      [SwapEvent.abortCountMismatch 1 0] :=
  c8_swap_count_guard [()] ([] : List Unit) (by simp)

/-- Modulus of 64-bit unsigned `size_t` arithmetic. -/
def M64 : ℕ := 2 ^ 64

/-- Fuel-indexed embedding of the exponential upper-bound loop of
`GraphGroup::collectStats` (graph_group.cpp lines 453-466):
`while(fits) { ...; fits = graph->fits(); if(fits) maxBatch *= 2; }`.
The memory-fit predicate is an arbitrary answer sequence `oracle`,
indexed by the call number `k`; `none` means the loop did not finish
within the given fuel. -/
def doublingPhase (oracle : ℕ → Bool) : ℕ → ℕ → ℕ → Option ℕ
  | 0, _, _ => none
  | fuel + 1, k, maxBatch =>
    if oracle k then doublingPhase oracle fuel (k + 1) (maxBatch * 2 % M64)
    else some maxBatch

/-- Termination of the doubling phase as `collectStats` enters it:
call index 0 and `maxBatch = 512` (graph_group.cpp line 453). -/
def doublingTerminates (oracle : ℕ → Bool) : Prop :=
  ∃ fuel, doublingPhase oracle fuel 0 512 ≠ none

/-- Fuel-indexed embedding of the per-bucket do-while loop of
`GraphGroup::collectStats` (graph_group.cpp lines 479-493): compute
`current = (start + end) / 2`, probe, then `start = current + 1` on a fit
and `end = current - 1` otherwise, looping `while(end - start > step)`.
All of `current + 1`, `current - 1` and `end - start` are 64-bit unsigned
operations, written with explicit `% M64` wrap-around; the body is one
match arm per `fits` answer with the shared guard inlined into each. -/
def bucketSearch (oracle : ℕ → Bool) (step : ℕ) :
    ℕ → ℕ → ℕ → ℕ → Option (ℕ × ℕ)
  | 0, _, _, _ => none
  | fuel + 1, k, start, stop =>
    if oracle k then
      if (stop + (M64 - ((start + stop) % M64 / 2 + 1) % M64)) % M64 > step
      then bucketSearch oracle step fuel (k + 1)
        (((start + stop) % M64 / 2 + 1) % M64) stop
      else some (((start + stop) % M64 / 2 + 1) % M64, stop)
    else
      if (((start + stop) % M64 / 2 + (M64 - 1)) % M64 + (M64 - start)) % M64
          > step
      then bucketSearch oracle step fuel (k + 1) start
        (((start + stop) % M64 / 2 + (M64 - 1)) % M64)
      else some (start, ((start + stop) % M64 / 2 + (M64 - 1)) % M64)

theorem doublingPhase_allTrue (fuel k m : ℕ) :
    doublingPhase (fun _ => true) fuel k m = none := by
  induction fuel generalizing k m with
  | zero => rfl
  | succ n ih => simp [doublingPhase, ih]

/-- C9 counterexample: for the fits-oracle that always answers true, the
exponential doubling phase never terminates — `while(fits)` keeps doubling
(and wrapping) `maxBatch` forever — so the batch-fit probe does not run to
completion for every possible sequence of `fits()` answers. -/
theorem c9_counterexample : ¬ doublingTerminates (fun _ => true) := by
  intro h
  obtain ⟨fuel, hf⟩ := h
  exact hf (doublingPhase_allTrue fuel 0 512)

theorem doublingPhase_terminates_of_false (oracle : ℕ → Bool) :
    ∀ n k m, oracle (k + n) = false →
      doublingPhase oracle (n + 1) k m ≠ none := by
  intro n
  induction n with
  | zero =>
    intro k m h
    simp only [Nat.add_zero] at h
    simp [doublingPhase, h]
  | succ n ih =>
    intro k m h
    by_cases hk : oracle k
    · simp only [doublingPhase, hk, if_true]
      refine ih (k + 1) (m * 2 % M64) ?_
      rw [show k + 1 + n = k + (n + 1) from by omega]
      exact h
    · simp [doublingPhase, hk]

theorem bucketSearch_terminates (oracle : ℕ → Bool) (step : ℕ)
    (hstep : 1 ≤ step) :
    ∀ d k s e, e - s = d → 1 ≤ s → s + 2 ≤ e → e ≤ 4611686018427387904 →
      ∃ fuel, bucketSearch oracle step fuel k s e ≠ none := by
  have hM : M64 = 18446744073709551616 := by norm_num [M64]
  intro d
  induction d using Nat.strong_induction_on with
  | _ d ih =>
    intro k s e hd h1 h2 h3
    have hse : (s + e) % M64 = s + e := by rw [hM]; omega
    have hcs : s + 1 ≤ (s + e) / 2 := by omega
    have hce : (s + e) / 2 + 1 ≤ e := by omega
    cases hk : oracle k with
    | true =>
      have hs1 : ((s + e) / 2 + 1) % M64 = (s + e) / 2 + 1 := by
        rw [hM]; omega
      have hg1 : (e + (M64 - ((s + e) / 2 + 1))) % M64
          = e - ((s + e) / 2 + 1) := by
        rw [hM]; omega
      by_cases hg : e - ((s + e) / 2 + 1) > step
      · obtain ⟨fuel, hfuel⟩ :=
          ih (e - ((s + e) / 2 + 1)) (by omega) (k + 1) ((s + e) / 2 + 1) e
            rfl (by omega) (by omega) h3
        refine ⟨fuel + 1, ?_⟩
        simp only [bucketSearch, hk, if_true, hse, hs1, hg1]
        rw [if_pos hg]
        exact hfuel
      · refine ⟨0 + 1, ?_⟩
        simp only [bucketSearch, hk, if_true, hse, hs1, hg1]
        rw [if_neg hg]
        simp
    | false =>
      have he1 : ((s + e) / 2 + (M64 - 1)) % M64 = (s + e) / 2 - 1 := by
        rw [hM]; omega
      have hg1 : ((s + e) / 2 - 1 + (M64 - s)) % M64
          = (s + e) / 2 - 1 - s := by
        rw [hM]; omega
      by_cases hg : (s + e) / 2 - 1 - s > step
      · obtain ⟨fuel, hfuel⟩ :=
          ih ((s + e) / 2 - 1 - s) (by omega) (k + 1) s ((s + e) / 2 - 1)
            rfl h1 (by omega) (by omega)
        refine ⟨fuel + 1, ?_⟩
        simp only [bucketSearch, hk, Bool.false_eq_true, if_false, hse, he1,
          hg1]
        rw [if_pos hg]
        exact hfuel
      · refine ⟨0 + 1, ?_⟩
        simp only [bucketSearch, hk, Bool.false_eq_true, if_false, hse, he1,
          hg1]
        rw [if_neg hg]
        simp

/-- C9 (amended): the exponential doubling phase terminates for every
fits-oracle that answers false at some call (and, by the counterexample,
for no other); and each per-bucket binary search terminates for every
fits-oracle and every step >= 1, provided its window enters with
`start >= 1`, `end >= start + 2`, and `end <= 2^62` (so the unsigned
`end - start` guard and `current - 1` update cannot wrap around). -/
theorem c9_probe_loops_terminate :
    (∀ oracle : ℕ → Bool, ∀ n, oracle n = false →
      doublingTerminates oracle) ∧
    (∀ oracle : ℕ → Bool, ∀ step k s e, 1 ≤ step → 1 ≤ s →
      s + 2 ≤ e → e ≤ 2 ^ 62 →
      ∃ fuel, bucketSearch oracle step fuel k s e ≠ none) := by
  constructor
  · intro oracle n h
    exact ⟨n + 1, doublingPhase_terminates_of_false oracle n 0 512
      (by simpa using h)⟩
  · intro oracle step k s e hstep h1 h2 h3
    exact bucketSearch_terminates oracle step hstep (e - s) k s e rfl h1 h2
      (by calc e ≤ 2 ^ 62 := h3
        _ = 4611686018427387904 := by norm_num)

/-- Witness for the C9 theorem: a concrete oracle answering false at call
0 makes the doubling phase finish, and a concrete all-true oracle with
step 1 on window [1, 10] makes the bucket search finish. -/
theorem c9_probe_loops_terminate_witness :
    doublingTerminates (fun _ => false) ∧
    ∃ fuel, bucketSearch (fun _ => true) 1 fuel 0 1 10 ≠ none :=
  ⟨c9_probe_loops_terminate.1 (fun _ => false) 0 rfl,
   c9_probe_loops_terminate.2 (fun _ => true) 1 0 1 10 (by norm_num)
     (by norm_num) (by norm_num) (by norm_num)⟩

/-- Error flags of a C++ input stream after a `std::getline` call, as
queried by the `marian::io::getline` wrapper: `bad()`, `fail()` (failbit
or badbit), and eof. The stream's `operator bool` is `!fail()`. -/
structure StreamState where
  badbit : Bool
  failbit : Bool
  eofbit : Bool
deriving Repr, DecidableEq

/-- Truthiness of the stream in `if(in && ...)`: `!fail()`, where `fail()`
reports failbit or badbit. -/
def streamOk (s : StreamState) : Bool := !(s.failbit || s.badbit)

/-- Embedding of the `marian::io::getline` wrapper
(file_stream.cpp lines 58-66): after the underlying `std::getline` (whose
outcome is the flag state `s` and the extracted `line`), abort fatally
when `bad()` is set; otherwise strip one terminal CR when the stream
converts to true, the line is non-empty and its last character is a
carriage return — `none` is the fatal `ABORT_IF` path, `some` the
returned line. -/
def marianGetline (s : StreamState) (line : String) : Option String :=
  if s.badbit then none
  else if streamOk s = true ∧ line ≠ "" ∧ line.back = '\r' then
    some (line.dropRight 1)
  else some line

/-- C10: the getline wrapper removes exactly one trailing CR character
when the read succeeded (no failbit/badbit) and the line ends in CR;
leaves the line unchanged in every other non-bad case (failed read, empty
line, or last character not CR); never aborts when `bad()` is clear — in
particular end-of-file alone never aborts, whatever the eof flag — and
aborts exactly when `bad()` is set. -/
theorem c10_getline_wrapper (s : StreamState) (line : String) :
    (s.badbit = false → s.failbit = false → line ≠ "" → line.back = '\r' →
      marianGetline s line = some (line.dropRight 1)) ∧
    (s.badbit = false →
      (s.failbit = true ∨ line = "" ∨ ¬ line.back = '\r') →
      marianGetline s line = some line) ∧
    (s.badbit = false → marianGetline s line ≠ none) ∧
    (marianGetline s line = none ↔ s.badbit = true) := by
  refine ⟨?_, ?_, ?_, ?_⟩
  · intro hbad hfail hne hcr
    simp [marianGetline, streamOk, hbad, hfail, hne, hcr]
  · intro hbad hor
    have hcond : ¬ (streamOk s = true ∧ line ≠ "" ∧ line.back = '\r') := by
      rcases hor with hf | he | hc
      · simp [streamOk, hf]
      · simp [he]
      · simp [hc]
    simp [marianGetline, hbad, hcond]
  · intro hbad
    simp only [marianGetline, hbad, Bool.false_eq_true, if_false]
    split <;> simp
  · cases hbad : s.badbit with
    | true => simp [marianGetline, hbad]
    | false =>
      simp only [marianGetline, hbad, Bool.false_eq_true, if_false]
      split <;> simp

/-- Concrete stream state at end-of-file with a successful final read. -/
def c10Stream : StreamState :=
  { badbit := false, failbit := false, eofbit := true }

/-- Witness for the C10 theorem: a line ending in CR read at end-of-file
loses exactly its final CR and does not abort. -/
theorem c10_getline_wrapper_witness :
    marianGetline c10Stream "abc\r" = some ("abc\r".dropRight 1) ∧
    marianGetline c10Stream "abc\r" ≠ none :=
  ⟨(c10_getline_wrapper c10Stream "abc\r").1 rfl rfl (by decide) (by decide),
   (c10_getline_wrapper c10Stream "abc\r").2.2.1 rfl⟩

end Marian
